import Mathlib

/-!
Shallow embedding of the Soroban contract `DisciplrVault` (src/src/lib.rs)
and verification of its specified lifecycle properties.

Modelling conventions: `Address` values and the opaque 32-byte milestone
hash (`BytesN<32>`) are represented by natural numbers; `amount : i128` is
represented by `Int` (it is only stored and compared, never combined
arithmetically, so no wraparound can occur); `u64` timestamps and the
`u32` vault identifier are `Nat`. A Rust `panic!("msg")` aborts the call
with no state change and is modelled as `Except.error "msg"`; host-trap
failure of `require_auth` is modelled as `Except.error "require_auth failed"`.
-/

namespace Disciplr

/-- Vault lifecycle status, from `enum VaultStatus` in the source. -/
inductive VaultStatus where
  | Active
  | Completed
  | Failed
  | Cancelled
deriving DecidableEq

/-- The stored vault record, from `struct ProductivityVault` in the source. -/
structure ProductivityVault where
  creator : Nat
  amount : Int
  start_timestamp : Nat
  end_timestamp : Nat
  milestone_hash : Nat
  verifier : Option Nat
  success_destination : Nat
  failure_destination : Nat
  status : VaultStatus
deriving DecidableEq

/-- Events the contract publishes via `env.events().publish`. -/
inductive VaultEvent where
  | vault_created (vault_id : Nat) (vault : ProductivityVault)
  | milestone_validated (vault_id : Nat)
  | vault_cancelled (vault_id : Nat)
deriving DecidableEq

/-- The host environment as the contract observes it: instance storage
(vault id to record), the ledger clock, the principals the invoking context
is authorized for (`require_auth` succeeds exactly on these), and the
append-only event log. -/
structure Env where
  storage : List (Nat × ProductivityVault)
  ledger_timestamp : Nat
  authorized : List Nat
  events : List VaultEvent
deriving DecidableEq

/-- `env.storage().instance().get(&vault_id)`: first binding for the key. -/
def storageGet (s : List (Nat × ProductivityVault)) (k : Nat) :
    Option ProductivityVault :=
  match s with
  | [] => none
  | (k1, v) :: rest => if k1 = k then some v else storageGet rest k

/-- `addr.require_auth()`: true iff the invoking context controls `addr`. -/
def requireAuth (env : Env) (addr : Nat) : Bool :=
  env.authorized.contains addr

/-- `get_vault_state` from the source: pure read of instance storage. -/
def get_vault_state (env : Env) (vault_id : Nat) : Option ProductivityVault :=
  storageGet env.storage vault_id

/-- `set_vault_state_test` from the source (test helper): upsert a record. -/
def set_vault_state_test (env : Env) (vault_id : Nat)
    (vault : ProductivityVault) : Env :=
  { env with storage := (vault_id, vault) :: env.storage }

/-- `create_vault` from the source: after `creator.require_auth()`, builds
the record with status `Active`, uses the placeholder identifier `0u32`,
publishes a `vault_created` event carrying the record, and returns the
identifier. The source performs no input validation, no asset pull and no
storage write (the pull and the id allocation plus persistence are TODO
comments in the source). -/
def create_vault (env : Env) (creator : Nat) (amount : Int)
    (start_timestamp : Nat) (end_timestamp : Nat) (milestone_hash : Nat)
    (verifier : Option Nat) (success_destination : Nat)
    (failure_destination : Nat) : Except String (Nat × Env) :=
  if requireAuth env creator then
    let vault : ProductivityVault :=
      { creator := creator, amount := amount,
        start_timestamp := start_timestamp, end_timestamp := end_timestamp,
        milestone_hash := milestone_hash, verifier := verifier,
        success_destination := success_destination,
        failure_destination := failure_destination,
        status := VaultStatus.Active }
    let vault_id : Nat := 0
    Except.ok (vault_id,
      { env with events := env.events ++ [VaultEvent.vault_created vault_id vault] })
  else
    Except.error "require_auth failed"

/-- `validate_milestone` from the source: a stub that publishes a
`milestone_validated` event and returns `true` unconditionally. It takes no
caller and checks nothing: existence, verifier authorization, Active status
and the deadline comparison are all TODO comments in the source. -/
def validate_milestone (env : Env) (vault_id : Nat) :
    Except String (Bool × Env) :=
  Except.ok (true,
    { env with events := env.events ++ [VaultEvent.milestone_validated vault_id] })

/-- `release_funds` from the source: a stub returning `true` with no checks
and no effect (the status guard, transfer and status update are TODO). -/
def release_funds (env : Env) (_vault_id : Nat) : Except String (Bool × Env) :=
  Except.ok (true, env)

/-- `redirect_funds` from the source: a stub returning `true` with no checks
and no effect (the Active-status guard, the deadline comparison, the
transfer and the status update are TODO). -/
def redirect_funds (env : Env) (_vault_id : Nat) : Except String (Bool × Env) :=
  Except.ok (true, env)

/-- `cancel_vault` from the source: requires auth for the given address,
then checks in order: the vault exists (else panics "Vault not found"), the
stored creator equals the given address (else panics "Only vault creator
can cancel"), the status is `Active` (else panics "Only Active vaults can
be cancelled"); on success publishes a `vault_cancelled` event and returns
`true`. The fund return and the status update to `Cancelled` are a TODO in
the source, so storage is not written. -/
def cancel_vault (env : Env) (vault_id : Nat) (creator : Nat) :
    Except String (Bool × Env) :=
  if requireAuth env creator then
    match get_vault_state env vault_id with
    | some vault =>
      if vault.creator ≠ creator then
        Except.error "Only vault creator can cancel"
      else if vault.status ≠ VaultStatus.Active then
        Except.error "Only Active vaults can be cancelled"
      else
        Except.ok (true,
          { env with events := env.events ++ [VaultEvent.vault_cancelled vault_id] })
    | none => Except.error "Vault not found"
  else
    Except.error "require_auth failed"

/-- The fixture record of the source tests (`create_test_vault`): amount
1000, window 1000 to 2000, a chosen status; principals 1, 2, 3, 4 stand for
the generated creator, verifier, success and failure destinations. -/
def testVault (status : VaultStatus) : ProductivityVault :=
  { creator := 1, amount := 1000, start_timestamp := 1000,
    end_timestamp := 2000, milestone_hash := 0, verifier := some 2,
    success_destination := 3, failure_destination := 4, status := status }

/-- A host state holding the fixture vault under id 1, with the clock one
tick before the fixture deadline and principals 1..5 authorized. -/
def testEnv (status : VaultStatus) : Env :=
  { storage := [(1, testVault status)], ledger_timestamp := 1999,
    authorized := [1, 2, 3, 4, 5], events := [] }

/-- A host state with empty storage and principals 1..5 authorized. -/
def emptyEnv : Env :=
  { storage := [], ledger_timestamp := 0, authorized := [1, 2, 3, 4, 5],
    events := [] }

/-- Unfolding equation for `create_vault`. -/
theorem create_vault_eq (env : Env) (creator : Nat) (amount : Int)
    (start_timestamp end_timestamp milestone_hash : Nat)
    (verifier : Option Nat) (success_destination failure_destination : Nat) :
    create_vault env creator amount start_timestamp end_timestamp
        milestone_hash verifier success_destination failure_destination =
      if requireAuth env creator then
        Except.ok (0,
          { env with events := env.events ++
              [VaultEvent.vault_created 0
                { creator := creator, amount := amount,
                  start_timestamp := start_timestamp,
                  end_timestamp := end_timestamp,
                  milestone_hash := milestone_hash, verifier := verifier,
                  success_destination := success_destination,
                  failure_destination := failure_destination,
                  status := VaultStatus.Active }] })
      else
        Except.error "require_auth failed" := rfl

/-- Behaviour of `cancel_vault` once the caller is authenticated. -/
theorem cancel_vault_auth_eq (env : Env) (vid caller : Nat)
    (hauth : requireAuth env caller = true) :
    cancel_vault env vid caller =
      match get_vault_state env vid with
      | some vault =>
        if vault.creator ≠ caller then
          Except.error "Only vault creator can cancel"
        else if vault.status ≠ VaultStatus.Active then
          Except.error "Only Active vaults can be cancelled"
        else
          Except.ok (true,
            { env with events := env.events ++ [VaultEvent.vault_cancelled vid] })
      | none => Except.error "Vault not found" := by
  unfold cancel_vault
  rw [hauth]
  rfl

/-- Behaviour of `cancel_vault` on a missing record. -/
theorem cancel_vault_none_eq (env : Env) (vid caller : Nat)
    (hauth : requireAuth env caller = true)
    (hg : get_vault_state env vid = none) :
    cancel_vault env vid caller = Except.error "Vault not found" := by
  unfold cancel_vault
  rw [hauth, hg]
  rfl

/-- Behaviour of `cancel_vault` on an existing record. -/
theorem cancel_vault_some_eq (env : Env) (vid caller : Nat)
    (v : ProductivityVault) (hauth : requireAuth env caller = true)
    (hg : get_vault_state env vid = some v) :
    cancel_vault env vid caller =
      if v.creator ≠ caller then
        Except.error "Only vault creator can cancel"
      else if v.status ≠ VaultStatus.Active then
        Except.error "Only Active vaults can be cancelled"
      else
        Except.ok (true,
          { env with events := env.events ++ [VaultEvent.vault_cancelled vid] }) := by
  unfold cancel_vault
  rw [hauth, hg]
  rfl

/-- Claim C1 (code demonstration): the claim says `create_vault` followed
immediately by `get_vault_state` on the returned identifier yields `Some`
record matching the inputs with status `Active`. In the source,
`create_vault` never writes storage, so at a concrete valid input over
empty storage the call succeeds with identifier 0 and the immediate lookup
returns `none`. -/
theorem c1_create_then_get_is_none :
    ∃ env1, create_vault emptyEnv 1 1000 1000 2000 0 (some 2) 3 4 =
        Except.ok (0, env1) ∧
      get_vault_state env1 0 = none := by
  exact ⟨_, rfl, rfl⟩

/-- Claim C2: every successful `create_vault` returns the placeholder
constant identifier 0, so identifiers are not distinct across calls and a
later vault would overwrite an earlier record once persistence exists. -/
theorem c2_create_vault_id_is_constant (env : Env) (creator : Nat)
    (amount : Int) (s e mh : Nat) (v : Option Nat) (sd fd : Nat)
    (p : Nat × Env)
    (h : create_vault env creator amount s e mh v sd fd = Except.ok p) :
    p.1 = 0 := by
  rw [create_vault_eq] at h
  split at h
  · rw [Except.ok.injEq] at h
    rw [← h]
  · exact Except.noConfusion h

/-- Witness for C2: at a concrete input the successful call returns the
pair with identifier 0. -/
theorem c2_create_vault_id_is_constant_witness : (0 : Nat) = 0 :=
  c2_create_vault_id_is_constant emptyEnv 1 1000 1000 2000 0 (some 2) 3 4
    (0, { emptyEnv with
            events := [VaultEvent.vault_created 0 (testVault VaultStatus.Active)] })
    rfl

/-- Claim C3: with the caller authenticated, `cancel_vault` succeeds iff
the vault exists, its status is `Active`, and the caller equals the stored
creator; each failure reports the specific violated precondition: "Vault
not found" for a missing record, "Only vault creator can cancel" for a
caller other than the creator, and "Only Active vaults can be cancelled"
for the creator on a non-Active vault. -/
theorem c3_cancel_vault_success_iff (env : Env) (vid caller : Nat)
    (hauth : requireAuth env caller = true) :
    ((∃ env1, cancel_vault env vid caller = Except.ok (true, env1)) ↔
      ∃ v, get_vault_state env vid = some v ∧
        v.status = VaultStatus.Active ∧ v.creator = caller) ∧
    (get_vault_state env vid = none →
      cancel_vault env vid caller = Except.error "Vault not found") ∧
    (∀ v, get_vault_state env vid = some v → v.creator ≠ caller →
      cancel_vault env vid caller =
        Except.error "Only vault creator can cancel") ∧
    (∀ v, get_vault_state env vid = some v → v.creator = caller →
      v.status ≠ VaultStatus.Active →
      cancel_vault env vid caller =
        Except.error "Only Active vaults can be cancelled") := by
  rw [cancel_vault_auth_eq env vid caller hauth]
  cases hg : get_vault_state env vid with
  | none =>
    refine ⟨by simp, fun _ => rfl, ?_, ?_⟩
    · intro w hw
      exact absurd hw (by simp)
    · intro w hw
      exact absurd hw (by simp)
  | some v =>
    by_cases hc : v.creator = caller
    · by_cases hs : v.status = VaultStatus.Active
      · refine ⟨by simp [hc, hs], by simp, ?_, ?_⟩
        · intro w hw hwc
          rw [Option.some.injEq] at hw
          subst hw
          exact absurd hc hwc
        · intro w hw _ hws
          rw [Option.some.injEq] at hw
          subst hw
          exact absurd hs hws
      · refine ⟨by simp [hc, hs], by simp, ?_, ?_⟩
        · intro w hw hwc
          rw [Option.some.injEq] at hw
          subst hw
          exact absurd hc hwc
        · intro w hw hwc hws
          simp [hc, hs]
    · refine ⟨by simp [hc], by simp, ?_, ?_⟩
      · intro w hw hwc
        simp [hc]
      · intro w hw hwc hws
        rw [Option.some.injEq] at hw
        subst hw
        exact absurd hwc hc

/-- Witness for C3: the missing-record conjunct applied at a concrete
state: cancelling the never-created id 999 reports "Vault not found". -/
theorem c3_cancel_vault_success_iff_witness :
    cancel_vault (testEnv VaultStatus.Active) 999 1 =
      Except.error "Vault not found" :=
  (c3_cancel_vault_success_iff (testEnv VaultStatus.Active) 999 1
    (by decide)).2.1 (by decide)

/-- Claim C4 (code demonstration): the claim says `validate_milestone`
fails unless the vault exists, the caller is the verifier, the status is
`Active`, and the clock is before `end_timestamp`. In the source it is a
stub with no caller parameter and no checks: on an identifier with no
stored record it still succeeds with `true`. -/
theorem c4_validate_milestone_unchecked :
    get_vault_state emptyEnv 999 = none ∧
    validate_milestone emptyEnv 999 =
      Except.ok (true,
        { emptyEnv with events := [VaultEvent.milestone_validated 999] }) :=
  ⟨rfl, rfl⟩

/-- Claim C5 (code demonstration): the claim says `redirect_funds` must
fail one tick before `end_timestamp` and fail with "not active" when
repeated. In the source it is a stub: on the Active fixture vault with the
clock at 1999, one tick before the deadline 2000, it succeeds and leaves
the state unchanged (so a repeat call succeeds identically instead of
failing), and it also succeeds on an identifier with no stored record. -/
theorem c5_redirect_funds_unchecked :
    (testEnv VaultStatus.Active).ledger_timestamp + 1 =
        (testVault VaultStatus.Active).end_timestamp ∧
    redirect_funds (testEnv VaultStatus.Active) 1 =
      Except.ok (true, testEnv VaultStatus.Active) ∧
    get_vault_state emptyEnv 999 = none ∧
    redirect_funds emptyEnv 999 = Except.ok (true, emptyEnv) :=
  ⟨rfl, rfl, rfl, rfl⟩

/-- Claim C6 (code demonstration): the claim says a successful
`cancel_vault` transfers the amount back to the creator and sets the stored
status to `Cancelled`. In the source both effects are a TODO: the creator's
successful cancel of the Active fixture vault leaves storage unchanged, and
the stored record still has status `Active`. -/
theorem c6_cancel_vault_no_status_update :
    ∃ env1, cancel_vault (testEnv VaultStatus.Active) 1 1 =
        Except.ok (true, env1) ∧
      env1.storage = (testEnv VaultStatus.Active).storage ∧
      get_vault_state env1 1 = some (testVault VaultStatus.Active) :=
  ⟨_, rfl, rfl, rfl⟩

/-- Claim C7 (code demonstration): the claim says every transition
operation fails on a terminal-status vault and leaves it unchanged.
`cancel_vault` does refuse a `Completed` vault, but the three stubs
`validate_milestone`, `release_funds` and `redirect_funds` all succeed on
it instead of failing. -/
theorem c7_terminal_states_not_enforced :
    cancel_vault (testEnv VaultStatus.Completed) 1 1 =
      Except.error "Only Active vaults can be cancelled" ∧
    (∃ env1, validate_milestone (testEnv VaultStatus.Completed) 1 =
        Except.ok (true, env1)) ∧
    release_funds (testEnv VaultStatus.Completed) 1 =
      Except.ok (true, testEnv VaultStatus.Completed) ∧
    redirect_funds (testEnv VaultStatus.Completed) 1 =
      Except.ok (true, testEnv VaultStatus.Completed) :=
  ⟨rfl, ⟨_, rfl⟩, rfl, rfl⟩

/-- Claim C8 (code demonstration): the claim says `create_vault` fails
with `InvalidInput` when `amount <= 0` or `start >= end`. The source
validates nothing: with amount -5 and window start 10, end 5 the call
still succeeds. -/
theorem c8_create_vault_accepts_invalid_input :
    ∃ env1, create_vault emptyEnv 1 (-5) 10 5 0 none 3 4 =
        Except.ok (0, env1) :=
  ⟨_, rfl⟩

/-- Claim C9: a successful `cancel_vault` writes nothing to the ledger:
the resulting storage equals the original storage (so the record, still
`Active`, is bit-for-bit unchanged), and a second identical call by the
creator succeeds again. -/
theorem c9_cancel_vault_no_ledger_write (env : Env) (vid caller : Nat)
    (b : Bool) (env1 : Env)
    (h : cancel_vault env vid caller = Except.ok (b, env1)) :
    env1.storage = env.storage ∧
      ∃ env2, cancel_vault env1 vid caller = Except.ok (true, env2) := by
  by_cases ha : requireAuth env caller = true
  · cases hg : get_vault_state env vid with
    | none =>
      rw [cancel_vault_none_eq env vid caller ha hg] at h
      exact Except.noConfusion h
    | some v =>
      rw [cancel_vault_some_eq env vid caller v ha hg] at h
      by_cases hc : v.creator = caller
      · by_cases hs : v.status = VaultStatus.Active
        · rw [if_neg (by simp [hc]), if_neg (by simp [hs])] at h
          rw [Except.ok.injEq, Prod.mk.injEq] at h
          obtain ⟨-, henv⟩ := h
          subst henv
          refine ⟨rfl, ?_⟩
          have ha1 : requireAuth
              { env with events := env.events ++ [VaultEvent.vault_cancelled vid] }
              caller = true := ha
          have hg1 : get_vault_state
              { env with events := env.events ++ [VaultEvent.vault_cancelled vid] }
              vid = some v := hg
          refine ⟨{ env with events :=
              (env.events ++ [VaultEvent.vault_cancelled vid]) ++
                [VaultEvent.vault_cancelled vid] }, ?_⟩
          rw [cancel_vault_some_eq _ vid caller v ha1 hg1,
            if_neg (by simp [hc]), if_neg (by simp [hs])]
        · rw [if_neg (by simp [hc]), if_pos (by simp [hs])] at h
          exact Except.noConfusion h
      · rw [if_pos (by simp [hc])] at h
        exact Except.noConfusion h
  · unfold cancel_vault at h
    rw [Bool.not_eq_true] at ha
    rw [ha] at h
    simp at h

/-- Witness for C9: the creator's successful cancel of the Active fixture
vault leaves the storage unchanged and can be repeated successfully. -/
theorem c9_cancel_vault_no_ledger_write_witness :
    ({ testEnv VaultStatus.Active with
        events := [VaultEvent.vault_cancelled 1] } : Env).storage =
      (testEnv VaultStatus.Active).storage ∧
    ∃ env2, cancel_vault
        { testEnv VaultStatus.Active with
            events := [VaultEvent.vault_cancelled 1] } 1 1 =
      Except.ok (true, env2) :=
  c9_cancel_vault_no_ledger_write (testEnv VaultStatus.Active) 1 1 true
    { testEnv VaultStatus.Active with events := [VaultEvent.vault_cancelled 1] }
    rfl

/-- Claim C10: with the caller authenticated, `cancel_vault` checks
existence first and creator authorization before status: a missing record
reports "Vault not found" whoever calls, and an existing vault whose
creator differs from the caller reports "Only vault creator can cancel"
even when its status is also non-Active. -/
theorem c10_cancel_vault_check_order (env : Env) (vid caller : Nat)
    (hauth : requireAuth env caller = true) :
    (get_vault_state env vid = none →
      cancel_vault env vid caller = Except.error "Vault not found") ∧
    (∀ v, get_vault_state env vid = some v → v.creator ≠ caller →
      v.status ≠ VaultStatus.Active →
      cancel_vault env vid caller =
        Except.error "Only vault creator can cancel") := by
  constructor
  · intro hg
    exact cancel_vault_none_eq env vid caller hauth hg
  · intro v hg hc _
    rw [cancel_vault_some_eq env vid caller v hauth hg, if_pos hc]

/-- Witness for C10: principal 5 (authorized, not the creator) cancelling
the Completed fixture vault is refused for authorship, not status. -/
theorem c10_cancel_vault_check_order_witness :
    cancel_vault (testEnv VaultStatus.Completed) 1 5 =
      Except.error "Only vault creator can cancel" :=
  (c10_cancel_vault_check_order (testEnv VaultStatus.Completed) 1 5
    (by decide)).2 (testVault VaultStatus.Completed) (by decide)
    (by decide) (by decide)

end Disciplr
